import Mathlib

/-!
Shallow embedding of the routeLLM gateway core (backend/app) and proofs of the
frozen claims about it.  Timestamps are modelled as integers (epoch seconds,
UTC); the source's naive/aware-datetime normalisation collapses to the
identity under this convention.  Python's floor division `//` is `Int.fdiv`,
and Python's `%` on a positive modulus agrees with `Int.emod`.
-/

namespace RouteLLM

/-! ## Data model (src/backend/app/models.py) -/

/-- Source `ProviderKey.status` values: "active", "cooling_down", "disabled". -/
inductive KeyStatus
  | active
  | coolingDown
  | disabled
deriving DecidableEq, Repr

/-- One row of the `provider_keys` table (models.py, class ProviderKey).
Timestamps are epoch seconds; nullable columns are `Option`. -/
structure ProviderKey where
  id : String
  provider : String
  apiKey : String
  maxRpm : Option Int
  priority : Int
  status : KeyStatus
  createdAtEpoch : Int
  lastUsedAt : Option Int
  lastErrorAt : Option Int
  errorCountRecent : Int
  coolingUntil : Option Int
deriving DecidableEq, Repr

/-- Source `is_key_effectively_active` (models.py): disabled keys are never active;
a key with `cooling_until > now` is inactive; otherwise active. -/
def is_key_effectively_active (key : ProviderKey) (now : Int) : Bool :=
  if key.status = KeyStatus.disabled then false
  else
    match key.coolingUntil with
    | some coolingUntil => if coolingUntil > now then false else true
    | none => true

/-! ## Settings (src/backend/app/config.py, class AppSettings) -/

/-- Settings fields used by the core (config.py).  The final two fields are
modelled from the spec: `default_max_tokens` and `provider_timeout_seconds`
are referenced by the source (anthropic_provider.py, agent_runs.py) but are
missing from the source `AppSettings`; the spec directs implementers to add
them with defaults 1024 and 1800. -/
structure AppSettings where
  keyRpmWindowSeconds : Int := 60
  keyCooldownSecondsOn429 : Int := 30
  keyCooldownSecondsOnNetworkError : Int := 15
  keyErrorDecayMinutes : Int := 10
  syncLlmMaxRetries : Nat := 2
  syncLlmMaxRetryWaitSeconds : Int := 1
  workerMaxAttempts : Nat := 5
  workerBaseBackoffSeconds : Int := 5
  workerMaxBackoffSeconds : Int := 60
  defaultMaxTokens : Int := 1024
  providerTimeoutSeconds : Int := 1800
deriving DecidableEq, Repr

/-! ## KeyPool (src/backend/app/key_pool.py) -/

/-- In-memory RPM state for one key (key_pool.py, class KeyUsageState). -/
structure KeyUsageState where
  windowStart : Int
  rpmCount : Int
deriving DecidableEq, Repr

/-- The process-wide `_rpm_state` dict, as an association list keyed by the
key id. -/
abbrev RpmState := List (String × KeyUsageState)

def rpmLookup (st : RpmState) (keyId : String) : Option KeyUsageState :=
  (st.find? (fun p => p.1 = keyId)).map (fun p => p.2)

def rpmSet (st : RpmState) (keyId : String) (v : KeyUsageState) : RpmState :=
  match st with
  | [] => [(keyId, v)]
  | p :: rest => if p.1 = keyId then (keyId, v) :: rest else p :: rpmSet rest keyId v

/-- Source `can_use_key_for_rpm` (key_pool.py).  Mutates `_rpm_state`, so it returns
the updated state alongside the decision. -/
def can_use_key_for_rpm (key : ProviderKey) (settings : AppSettings) (nowTs : Int)
    (st : RpmState) : Bool × RpmState :=
  match key.maxRpm with
  | none => (true, st)
  | some maxRpm =>
    match rpmLookup st key.id with
    | none => (true, rpmSet st key.id ⟨nowTs, 0⟩)
    | some s =>
      if nowTs - s.windowStart ≥ settings.keyRpmWindowSeconds then
        (true, rpmSet st key.id ⟨nowTs, 0⟩)
      else
        (decide (s.rpmCount < maxRpm), st)

/-- Source `register_key_usage` (key_pool.py). -/
def register_key_usage (key : ProviderKey) (settings : AppSettings) (nowTs : Int)
    (st : RpmState) : RpmState :=
  match rpmLookup st key.id with
  | none => rpmSet st key.id ⟨nowTs, 1⟩
  | some s =>
    if nowTs - s.windowStart ≥ settings.keyRpmWindowSeconds then
      rpmSet st key.id ⟨nowTs, 1⟩
    else
      rpmSet st key.id ⟨s.windowStart, s.rpmCount + 1⟩

/-- Python's `x or d` for integers: `0` (and `None`, which cannot occur for
these non-nullable columns) is falsy and replaced by the default. -/
def pyOrInt (x d : Int) : Int := if x = 0 then d else x

/-- Source `key_score` (key_pool.py): `(error_count_recent or 0, priority or 100,
created_at_epoch)`. -/
def key_score (key : ProviderKey) : Int × Int × Int :=
  (pyOrInt key.errorCountRecent 0, pyOrInt key.priority 100, key.createdAtEpoch)

/-- Lexicographic `≤` on score triples, as Python compares tuples. -/
def scoreLe (a b : Int × Int × Int) : Bool :=
  decide (a.1 < b.1) ||
    (decide (a.1 = b.1) &&
      (decide (a.2.1 < b.2.1) ||
        (decide (a.2.1 = b.2.1) && decide (a.2.2 ≤ b.2.2))))

/-- Insert `x` after every earlier element whose score is `≤ x`'s score:
folded over a list this is a stable ascending sort. -/
def insertSorted (score : ProviderKey → Int × Int × Int) (x : ProviderKey) :
    List ProviderKey → List ProviderKey
  | [] => [x]
  | y :: ys =>
    if scoreLe (score y) (score x) then y :: insertSorted score x ys
    else x :: y :: ys

/-- Stable ascending sort by a score function, matching Python's stable
`list.sort(key=...)`. -/
def sortStable (score : ProviderKey → Int × Int × Int)
    (l : List ProviderKey) : List ProviderKey :=
  l.foldl (fun acc x => insertSorted score x acc) []

/-- Source `available_keys.sort(key=key_score)` (key_pool.py). -/
def sortByScore (l : List ProviderKey) : List ProviderKey :=
  sortStable key_score l

/-- The per-provider round-robin cursor cell in the shared store
(`round_robin_index:<provider>` in Redis): absent, present but not parseable
as an integer, or an integer value. -/
inductive CursorCell
  | absent
  | unreadable
  | val (n : Int)
deriving DecidableEq, Repr

/-- Reading the cursor (key_pool.py choose_best_key): default 0 when the
cell is absent, empty, or fails to parse (`ValueError`/`AttributeError`). -/
def readCursor : CursorCell → Int
  | CursorCell.absent => 0
  | CursorCell.unreadable => 0
  | CursorCell.val n => n

/-- First half of `decay_key_errors` (key_pool.py): reset
`error_count_recent` once `last_error_at` is at least
`key_error_decay_minutes` old (`(now - last_error).total_seconds() / 60 ≥
decay_minutes`, which for integer timestamps is exactly
`now - last_error ≥ 60 * decay_minutes`). -/
def decayErrorCount (settings : AppSettings) (key : ProviderKey) (now : Int) :
    ProviderKey :=
  match key.lastErrorAt with
  | some lastError =>
    if now - lastError ≥ settings.keyErrorDecayMinutes * 60 then
      { key with errorCountRecent := 0 }
    else key
  | none => key

/-- Second half of `decay_key_errors`: reactivate a cooling key whose
`cooling_until` has passed (`if key.status == "cooling_down"` and
`cooling_until <= now`). -/
def reactivateIfCoolingExpired (key : ProviderKey) (now : Int) : ProviderKey :=
  if key.status = KeyStatus.coolingDown then
    match key.coolingUntil with
    | some coolingUntil =>
      if coolingUntil ≤ now then
        { key with status := KeyStatus.active, coolingUntil := none }
      else key
    | none => key
  else key

/-- Source `decay_key_errors` (key_pool.py): decay the recent-error count,
then reactivate the key if its cooling period has expired. -/
def decay_key_errors (settings : AppSettings) (key : ProviderKey) (now : Int) :
    ProviderKey :=
  reactivateIfCoolingExpired (decayErrorCount settings key now) now

/-- Source `mark_key_error` (key_pool.py): bump `error_count_recent`, stamp
`last_error_at`, then disable (authentication), or cool for the configured
period (rate limit / transient). -/
def mark_key_error (settings : AppSettings) (key : ProviderKey) (now : Int)
    (isRateLimit : Bool) (isAuthenticationError : Bool) : ProviderKey :=
  let key :=
    { key with errorCountRecent := key.errorCountRecent + 1, lastErrorAt := some now }
  if isAuthenticationError then
    { key with status := KeyStatus.disabled, coolingUntil := none }
  else if isRateLimit then
    { key with coolingUntil := some (now + settings.keyCooldownSecondsOn429),
               status := KeyStatus.coolingDown }
  else
    { key with coolingUntil := some (now + settings.keyCooldownSecondsOnNetworkError),
               status := KeyStatus.coolingDown }

/-- Source `update_key_usage` (key_pool.py): persist `last_used_at = now`. -/
def update_key_usage (key : ProviderKey) (now : Int) : ProviderKey :=
  { key with lastUsedAt := some now }

/-- The availability filter inside `choose_best_key`: drop excluded keys,
keys not effectively active, and keys failing the RPM check; the RPM check
threads its in-memory state left to right exactly as the Python loop does. -/
def filterAvailable (settings : AppSettings) (now nowTs : Int)
    (excluded : List String) :
    List ProviderKey → RpmState → List ProviderKey × RpmState
  | [], st => ([], st)
  | key :: ks, st =>
    if key.id ∈ excluded then filterAvailable settings now nowTs excluded ks st
    else if ¬ is_key_effectively_active key now then
      filterAvailable settings now nowTs excluded ks st
    else
      let res := can_use_key_for_rpm key settings nowTs st
      if res.1 then
        let rest := filterAvailable settings now nowTs excluded ks res.2
        (key :: rest.1, rest.2)
      else filterAvailable settings now nowTs excluded ks res.2

/-- Result of `choose_best_key`: the selected key (if any), the table rows of
the provider's non-disabled keys after the opportunistic decay commit, the
new cursor cell, and the new RPM state. -/
structure SelectResult where
  selected : Option ProviderKey
  keys : List ProviderKey
  cursor : CursorCell
  rpm : RpmState
deriving Repr

/-- The provider's non-disabled rows after the opportunistic decay pass at
the top of `choose_best_key` (the db query filter plus the decay loop). -/
def providerKeysDecayed (allKeys : List ProviderKey) (provider : String)
    (settings : AppSettings) (now : Int) : List ProviderKey :=
  (allKeys.filter
    (fun k => k.provider = provider ∧ k.status ≠ KeyStatus.disabled)).map
    (fun k => decay_key_errors settings k now)

/-- Source `choose_best_key` (key_pool.py): load non-disabled keys of the provider,
decay all, filter availability, stable-sort by `key_score`, then pick index
`cursor % len` and persist `cursor + 1`. -/
def choose_best_key (allKeys : List ProviderKey) (provider : String)
    (settings : AppSettings) (now nowTs : Int) (excluded : List String)
    (cursor : CursorCell) (rpm : RpmState) : SelectResult :=
  let keysD := providerKeysDecayed allKeys provider settings now
  if keysD.isEmpty then ⟨none, keysD, cursor, rpm⟩
  else
    let avail := filterAvailable settings now nowTs excluded keysD rpm
    if avail.1.isEmpty then ⟨none, keysD, cursor, avail.2⟩
    else
      let sorted := sortByScore avail.1
      let currentIndex := readCursor cursor
      let index := (currentIndex.emod (sorted.length : Int)).toNat
      ⟨sorted.get? index, keysD, CursorCell.val (currentIndex + 1), avail.2⟩

/-! ## Token time series (src/backend/app/key_usage_timeseries.py) -/

/-- One per-key usage sample (`TokenSample`): epoch-second timestamp and a
token count. -/
structure TokenSample where
  timestamp : Int
  tokens : Int
deriving DecidableEq, Repr

/-- Retention window: `_MAX_WINDOW_SECONDS = 24 * 60 * 60`. -/
def maxWindowSeconds : Int := 24 * 60 * 60

/-- The shared fast store (Redis) as seen by the time-series module: the
per-key sample lists (head of the list = most recently pushed sample, as
`lpush` prepends), plus a reachability flag.  When `ok` is `false` every
storage operation raises, mirroring a connection failure; samples are kept
structured, so the source's JSON-decode-failure branch (which merely evicts
the corrupt entry) has no counterpart here. -/
structure RedisStore where
  ok : Bool
  lists : List (String × List TokenSample)
deriving DecidableEq, Repr

def redisList (st : RedisStore) (keyId : String) : List TokenSample :=
  ((st.lists.find? (fun p => p.1 = keyId)).map (fun p => p.2)).getD []

def redisSetList (st : RedisStore) (keyId : String) (l : List TokenSample) :
    RedisStore :=
  { st with lists :=
      match st.lists.find? (fun p => p.1 = keyId) with
      | some _ => st.lists.map (fun p => if p.1 = keyId then (keyId, l) else p)
      | none => st.lists ++ [(keyId, l)] }

/-- The `try` block of `record_key_tokens`: `lpush` the new sample, then walk
the list and drop samples older than 24 h (`delete` + `rpush` of the
survivors when anything was evicted).  Raises when the store is
unreachable. -/
def record_key_tokens_try (st : RedisStore) (keyId : String) (tokens nowTs : Int) :
    Except String RedisStore :=
  if st.ok = false then Except.error "failed to get Redis connection"
  else
    let pushed := TokenSample.mk nowTs tokens :: redisList st keyId
    let cutoff := nowTs - maxWindowSeconds
    let valid := pushed.filter (fun s => s.timestamp ≥ cutoff)
    let evicted := pushed.length - valid.length
    if evicted > 0 then Except.ok (redisSetList st keyId valid)
    else Except.ok (redisSetList st keyId pushed)

/-- Source `record_key_tokens`: no-op for non-positive token counts; otherwise run
the `try` block and swallow any storage failure (log-and-continue). -/
def record_key_tokens (st : RedisStore) (keyId : String) (tokens nowTs : Int) :
    RedisStore :=
  if tokens ≤ 0 then st
  else
    match record_key_tokens_try st keyId tokens nowTs with
    | Except.ok st' => st'
    | Except.error _ => st

/-- One returned point of the time-series query.  The source formats the
bucket start as an ISO8601 string with a Z suffix; the formatting is an
injective, order-preserving image of the epoch value modelled here. -/
structure TimePoint where
  ts : Int
  tokens : Int
deriving DecidableEq, Repr

/-- Add `v` to the element of `l` at position `i` (Python `buckets[idx] += v`). -/
def addAt : List Int → Nat → Int → List Int
  | [], _, _ => []
  | x :: xs, 0, v => (x + v) :: xs
  | x :: xs, Nat.succ n, v => x :: addAt xs n v

/-- Source `bucket_count = max(1, int(window_seconds // step_seconds))`. -/
def bucketCountOf (windowMinutes stepSeconds : Int) : Nat :=
  (max 1 ((windowMinutes * 60).fdiv stepSeconds)).toNat

/-- Source `now_aligned_up = int((now + step_seconds - 1) // step_seconds) * step_seconds`,
the end of the last bucket. -/
def endTimeOf (stepSeconds nowTs : Int) : Int :=
  ((nowTs + stepSeconds - 1).fdiv stepSeconds) * stepSeconds

/-- Source `start_time = end_time - bucket_count * step_seconds`. -/
def startTimeOf (windowMinutes stepSeconds nowTs : Int) : Int :=
  endTimeOf stepSeconds nowTs - (bucketCountOf windowMinutes stepSeconds : Int) * stepSeconds

/-- One step of the sample-to-bucket assignment loop:
`idx = (ts - start_time) // step_seconds`; skip negative indices, clamp
indices past the end into the last bucket. -/
def bucketStep (startTime stepSeconds : Int) (bucketCount : Nat)
    (b : List Int) (s : TokenSample) : List Int :=
  let idx := (s.timestamp - startTime).fdiv stepSeconds
  if idx < 0 then b
  else if idx ≥ (bucketCount : Int) then addAt b (bucketCount - 1) s.tokens
  else addAt b idx.toNat s.tokens

/-- The bucket totals for the in-window samples. -/
def bucketsOf (samples : List TokenSample)
    (windowMinutes stepSeconds nowTs : Int) : List Int :=
  samples.foldl
    (bucketStep (startTimeOf windowMinutes stepSeconds nowTs) stepSeconds
      (bucketCountOf windowMinutes stepSeconds))
    (List.replicate (bucketCountOf windowMinutes stepSeconds) 0)

/-- The window prefilter `sample.timestamp >= start` with
`start = now - window_minutes * 60`. -/
def inWindow (windowMinutes nowTs : Int) (s : TokenSample) : Bool :=
  s.timestamp ≥ nowTs - windowMinutes * 60

/-- The pure core of `get_key_tokens_timeseries`, applied to the sample list
read from the store: returns `[]` when no samples are stored or none falls
inside the window; otherwise buckets the samples into
`max(1, window_seconds // step_seconds)` buckets aligned so that the last
bucket ends at `now` rounded up to a step boundary, skipping samples before
the bucket range and clamping later samples into the last bucket. -/
def get_key_tokens_timeseries_core (samples0 : List TokenSample)
    (windowMinutes stepSeconds nowTs : Int) : List TimePoint :=
  if samples0.isEmpty then []
  else
    let samples := samples0.filter (inWindow windowMinutes nowTs)
    if samples.isEmpty then []
    else
      (bucketsOf samples windowMinutes stepSeconds nowTs).enum.map
        (fun p =>
          TimePoint.mk
            (startTimeOf windowMinutes stepSeconds nowTs + (p.1 : Int) * stepSeconds)
            p.2)

/-- Source `get_key_tokens_timeseries`: read the per-key list from the store (an
unreachable store makes the whole `try` fail, returning `[]`) and run the
pure bucketing core. -/
def get_key_tokens_timeseries (st : RedisStore) (keyId : String)
    (windowMinutes stepSeconds nowTs : Int) : List TimePoint :=
  if st.ok then
    get_key_tokens_timeseries_core (redisList st keyId) windowMinutes stepSeconds nowTs
  else []

/-! ## Provider adapters, pre-upstream phase (src/backend/app/providers/) -/

/-- The typed provider error taxonomy.  `errors.py` defines rate-limit,
transient and client errors; the authentication variant is the
`ProviderAuthenticationError` that the three adapters import and raise but
that `errors.py` never defines. -/
inductive ErrKind
  | rateLimit (retryAfter : Option Int)
  | transient
  | authentication
  | client
deriving DecidableEq, Repr

/-- A chat message as the adapters see it (schemas.py `ChatMessage`); only
role and content matter to the pre-upstream control flow. -/
structure ChatMessage where
  role : String
  content : String
deriving DecidableEq, Repr

/-- A chat request (schemas.py `ChatRequest`), reduced to its message list:
no other field affects whether an adapter raises before calling upstream
(with the spec-modelled `default_max_tokens` present in settings). -/
structure ChatRequest where
  messages : List ChatMessage
deriving DecidableEq, Repr

/-- What an adapter does before issuing any upstream HTTP call: proceed to
the call, raise a typed provider error, or raise a bare `HTTPException`. -/
inductive PreOutcome
  | proceedUpstream
  | raiseProvider (e : ErrKind)
  | raiseHttp (status : Int)
deriving DecidableEq, Repr

/-- Source `AnthropicProvider.chat` before the upstream call: an empty key raises a
client error; then the test hooks fire on the first message's content
(`force429` with `retry_after=30`, `force_transient_error`); otherwise the
upstream request is issued. -/
def anthropic_chat_pre (key : String) (req : ChatRequest) : PreOutcome :=
  if key = "" then PreOutcome.raiseProvider ErrKind.client
  else
    match req.messages with
    | [] => PreOutcome.proceedUpstream
    | m :: _ =>
      if m.content = "force429" then
        PreOutcome.raiseProvider (ErrKind.rateLimit (some 30))
      else if m.content = "force_transient_error" then
        PreOutcome.raiseProvider ErrKind.transient
      else PreOutcome.proceedUpstream

/-- Source `OpenAIProvider.chat` before the upstream call: an empty key raises
`HTTPException(500)`; there are no test hooks, so every other request goes
straight to the upstream call. -/
def openai_chat_pre (key : String) (_req : ChatRequest) : PreOutcome :=
  if key = "" then PreOutcome.raiseHttp 500 else PreOutcome.proceedUpstream

/-- Source `GeminiProvider.chat` before the upstream call: an empty key raises a
client error; there are no test hooks. -/
def gemini_chat_pre (key : String) (_req : ChatRequest) : PreOutcome :=
  if key = "" then PreOutcome.raiseProvider ErrKind.client
  else PreOutcome.proceedUpstream

/-! ## Synchronous chat path (src/backend/app/api/v1_llm.py, chat_completion) -/

/-- The outcome of one adapter call for a given api key: success with the
computed total token count (`total_tokens`, else `prompt + completion`;
`none` when the response carries no usage), or a typed failure. -/
inductive ChatOutcome
  | success (totalTokens : Option Int)
  | failure (e : ErrKind)
deriving DecidableEq, Repr

/-- Replace the row with the same id (single-row UPDATE). -/
def updateKey (table : List ProviderKey) (k : ProviderKey) : List ProviderKey :=
  table.map (fun k0 => if k0.id = k.id then k else k0)

/-- Commit a batch of row updates in order. -/
def updateKeys (table : List ProviderKey) (ks : List ProviderKey) :
    List ProviderKey :=
  ks.foldl updateKey table

/-- Shared mutable state visible to the request paths: the `provider_keys`
table, the round-robin cursor cell, the in-process RPM map and the sample
store. -/
structure GatewayState where
  keys : List ProviderKey
  cursor : CursorCell
  rpm : RpmState
  redis : RedisStore
deriving Repr

/-- HTTP-level result of the sync chat endpoint. -/
inductive HttpResult
  | ok (keyId : String)
  | badRequest400
  | tooMany429 (retryAfter : Int)
  | unavailable503
  | internal500
deriving DecidableEq, Repr

/-- The post-loop translation of the last stored exception (v1_llm.py
282-306): a rate-limit failure yields 429 with `Retry-After` from the error
(falsy values replaced by `sync_llm_max_retry_wait_seconds`), any other
failure 503, no failure (no key ever selected) 503. -/
def lastErrorResult (settings : AppSettings) : Option ErrKind → HttpResult
  | some (ErrKind.rateLimit retryAfter) =>
    HttpResult.tooMany429 (pyOrInt (retryAfter.getD 0) settings.syncLlmMaxRetryWaitSeconds)
  | some _ => HttpResult.unavailable503
  | none => HttpResult.unavailable503

/-- Cooling reset on success (v1_llm.py 195-201 / worker.py 200-206):
`if status == cooling_down and (not cooling_until or cooling_until <= now)`. -/
def resetCoolingOnSuccess (key : ProviderKey) (now : Int) : ProviderKey :=
  if key.status = KeyStatus.coolingDown then
    match key.coolingUntil with
    | none => { key with status := KeyStatus.active, coolingUntil := none }
    | some c =>
      if c ≤ now then { key with status := KeyStatus.active, coolingUntil := none }
      else key
  else key

/-- Token recording on success: only when usage is present and the computed
total is positive. -/
def recordUsageTokens (redis : RedisStore) (keyId : String)
    (totalTokens : Option Int) (nowTs : Int) : RedisStore :=
  match totalTokens with
  | some t => if t > 0 then record_key_tokens redis keyId t nowTs else redis
  | none => redis

/-- The retry loop of `chat_completion` (v1_llm.py 159-280), parameterised by
the adapter's behaviour per api key.  Each iteration selects a key
(excluding ones already tried), commits decay and usage stamps, then calls
the adapter: rate-limit and transient failures mark the key and continue;
a client failure raises HTTP 400 at once; an authentication failure has no
handler in the loop, so it escapes to the endpoint's generic
`except Exception` and becomes HTTP 500 with no key-state change. -/
def chat_completion_loop (behavior : String → ChatOutcome) (provider : String)
    (settings : AppSettings) (now nowTs : Int) :
    Nat → List String → Option ErrKind → GatewayState → HttpResult × GatewayState
  | 0, _, lastErr, st => (lastErrorResult settings lastErr, st)
  | Nat.succ n, excluded, lastErr, st =>
    let sel := choose_best_key st.keys provider settings now nowTs excluded
      st.cursor st.rpm
    let st1 : GatewayState :=
      { st with keys := updateKeys st.keys sel.keys, cursor := sel.cursor,
                rpm := sel.rpm }
    match sel.selected with
    | none => (lastErrorResult settings lastErr, st1)
    | some key0 =>
      let excluded1 := excluded ++ [key0.id]
      let key1 := decay_key_errors settings key0 now
      let rpm1 := register_key_usage key1 settings nowTs st1.rpm
      let key2 := update_key_usage key1 now
      let st2 : GatewayState :=
        { st1 with keys := updateKey st1.keys key2, rpm := rpm1 }
      match behavior key2.apiKey with
      | ChatOutcome.success totalTokens =>
        let key3 := resetCoolingOnSuccess key2 now
        let key4 := update_key_usage key3 now
        let st3 : GatewayState :=
          { st2 with keys := updateKey st2.keys key4,
                     redis := recordUsageTokens st2.redis key2.id totalTokens nowTs }
        (HttpResult.ok key2.id, st3)
      | ChatOutcome.failure (ErrKind.rateLimit retryAfter) =>
        let key3 := mark_key_error settings key2 now true false
        let st3 : GatewayState := { st2 with keys := updateKey st2.keys key3 }
        chat_completion_loop behavior provider settings now nowTs n excluded1
          (some (ErrKind.rateLimit retryAfter)) st3
      | ChatOutcome.failure ErrKind.transient =>
        let key3 := mark_key_error settings key2 now false false
        let st3 : GatewayState := { st2 with keys := updateKey st2.keys key3 }
        chat_completion_loop behavior provider settings now nowTs n excluded1
          (some ErrKind.transient) st3
      | ChatOutcome.failure ErrKind.client =>
        (HttpResult.badRequest400, st2)
      | ChatOutcome.failure ErrKind.authentication =>
        (HttpResult.internal500, st2)

/-- Source `chat_completion`: run the loop with `sync_llm_max_retries + 1` attempts,
an empty excluded set and no stored exception. -/
def chat_completion (behavior : String → ChatOutcome) (provider : String)
    (settings : AppSettings) (now nowTs : Int) (st : GatewayState) :
    HttpResult × GatewayState :=
  chat_completion_loop behavior provider settings now nowTs
    (settings.syncLlmMaxRetries + 1) [] none st

/-! ## Run engine (src/backend/app/worker.py, src/backend/app/api/agent_runs.py) -/

inductive RunStatus
  | pending
  | queued
  | running
  | succeeded
  | failed
  | canceled
deriving DecidableEq, Repr

/-- The persistent `runs` row fields the core mutates. -/
structure RunRecord where
  status : RunStatus
  provider : String
  retryCount : Int
  error : Option String
  lastErrorReason : Option String
  startedAt : Option Int
  finishedAt : Option Int
  outputSet : Bool
deriving DecidableEq, Repr

/-- What a single worker invocation does besides mutating rows: skip a
canceled run, re-enqueue itself with a delay and the next attempt number, or
return with the run in a terminal state. -/
inductive WorkerOutcome
  | skippedCanceled
  | requeued (delaySeconds : Int) (nextAttempt : Nat)
  | finishedRun
deriving DecidableEq, Repr

/-- Exponential backoff `min(base * 2^(attempt-1), max_backoff)`. -/
def backoffDelay (settings : AppSettings) (attempt : Nat) : Int :=
  min (settings.workerBaseBackoffSeconds * (2 : Int) ^ (attempt - 1))
    settings.workerMaxBackoffSeconds

/-- Source `process_run_job` (worker.py 36-346).  The source wraps the key
selection and the adapter call in `while True:`, but every branch of the
loop body returns, so one invocation performs at most one selection and one
adapter call; the `excluded` set never holds more than the single tried key.
On rate-limit and transient failures with attempts left it marks the key and
immediately re-enqueues with a delay; an authentication failure is not
handled by the loop's `except` clauses and falls through to the function's
catch-all, which marks the run failed with `finished_at` set. -/
def process_run_job (behavior : String → ChatOutcome) (settings : AppSettings)
    (now nowTs : Int) (run0 : RunRecord) (attempt : Nat) (st : GatewayState) :
    WorkerOutcome × RunRecord × GatewayState :=
  if run0.status = RunStatus.canceled then (WorkerOutcome.skippedCanceled, run0, st)
  else
    let run := { run0 with status := RunStatus.running, startedAt := some now }
    let maxAttempts := settings.workerMaxAttempts
    let excluded : List String := []
    let sel := choose_best_key st.keys run.provider settings now nowTs excluded
      st.cursor st.rpm
    let st1 : GatewayState :=
      { st with keys := updateKeys st.keys sel.keys, cursor := sel.cursor,
                rpm := sel.rpm }
    match sel.selected with
    | none =>
      if attempt < maxAttempts then
        (WorkerOutcome.requeued (backoffDelay settings attempt) (attempt + 1),
         { run with status := RunStatus.queued, retryCount := (attempt : Int),
                    lastErrorReason := some "No available keys" }, st1)
      else
        (WorkerOutcome.finishedRun,
         { run with status := RunStatus.failed,
                    error := some "No available keys after all retries",
                    retryCount := (attempt : Int), finishedAt := some now }, st1)
    | some key0 =>
      let key1 := decay_key_errors settings key0 now
      let rpm1 := register_key_usage key1 settings nowTs st1.rpm
      let key2 := update_key_usage key1 now
      let st2 : GatewayState :=
        { st1 with keys := updateKey st1.keys key2, rpm := rpm1 }
      match behavior key2.apiKey with
      | ChatOutcome.success totalTokens =>
        let key3 := resetCoolingOnSuccess key2 now
        let run1 := { run with status := RunStatus.succeeded, outputSet := true,
                               finishedAt := some now,
                               retryCount := (attempt : Int) - 1 }
        let key4 := update_key_usage key3 now
        let st3 : GatewayState :=
          { st2 with keys := updateKey st2.keys key4,
                     redis := recordUsageTokens st2.redis key2.id totalTokens nowTs }
        (WorkerOutcome.finishedRun, run1, st3)
      | ChatOutcome.failure (ErrKind.rateLimit retryAfter) =>
        let key3 := mark_key_error settings key2 now true false
        let st3 : GatewayState := { st2 with keys := updateKey st2.keys key3 }
        if attempt < maxAttempts then
          let delay :=
            match retryAfter with
            | none => backoffDelay settings attempt
            | some ra => min ra settings.workerMaxBackoffSeconds
          (WorkerOutcome.requeued delay (attempt + 1),
           { run with status := RunStatus.queued, retryCount := (attempt : Int),
                      lastErrorReason := some "Rate limit" }, st3)
        else
          (WorkerOutcome.finishedRun,
           { run with status := RunStatus.failed,
                      error := some "Rate limit error after max attempts",
                      retryCount := (attempt : Int), finishedAt := some now }, st3)
      | ChatOutcome.failure ErrKind.transient =>
        let key3 := mark_key_error settings key2 now false false
        let st3 : GatewayState := { st2 with keys := updateKey st2.keys key3 }
        if attempt < maxAttempts then
          (WorkerOutcome.requeued (backoffDelay settings attempt) (attempt + 1),
           { run with status := RunStatus.queued, retryCount := (attempt : Int),
                      lastErrorReason := some "Transient error" }, st3)
        else
          (WorkerOutcome.finishedRun,
           { run with status := RunStatus.failed,
                      error := some "Transient error after max attempts",
                      retryCount := (attempt : Int), finishedAt := some now }, st3)
      | ChatOutcome.failure ErrKind.client =>
        (WorkerOutcome.finishedRun,
         { run with status := RunStatus.failed, error := some "Client error",
                    retryCount := (attempt : Int),
                    lastErrorReason := some "Client error",
                    finishedAt := some now }, st2)
      | ChatOutcome.failure ErrKind.authentication =>
        (WorkerOutcome.finishedRun,
         { run with status := RunStatus.failed, error := some "Worker error",
                    finishedAt := some now }, st2)

/-- Result of the producer `create_run` (agent_runs.py 19-148). -/
inductive CreateRunResult
  | existingRun (status : RunStatus)
  | created201 (status : RunStatus)
  | enqueueFailed500
deriving DecidableEq, Repr

/-- Source `create_run`: return an existing run on an idempotency-key hit; else
insert the run as `pending`, enqueue the job, and set `queued` — or, when the
enqueue raises, set `failed` with an error reason (the source sets no
`finished_at` on this path) and raise HTTP 500.  The second component is the
newly persisted row, `none` on the idempotency hit. -/
def create_run (existing : Option RunRecord) (enqueueOk : Bool)
    (provider : String) : CreateRunResult × Option RunRecord :=
  match existing with
  | some r => (CreateRunResult.existingRun r.status, none)
  | none =>
    let run : RunRecord :=
      { status := RunStatus.pending, provider := provider, retryCount := 0,
        error := none, lastErrorReason := none, startedAt := none,
        finishedAt := none, outputSet := false }
    if enqueueOk then
      let run1 := { run with status := RunStatus.queued }
      (CreateRunResult.created201 run1.status, some run1)
    else
      let run1 := { run with status := RunStatus.failed,
                             error := some "Failed to enqueue job" }
      (CreateRunResult.enqueueFailed500, some run1)

/-- Source `cancel_run` (agent_runs.py 168-197): 400 on a terminal run; otherwise
set `canceled` and stamp `finished_at`. -/
def cancel_run (run : RunRecord) (now : Int) : Except Int RunRecord :=
  if run.status = RunStatus.succeeded ∨ run.status = RunStatus.failed ∨
      run.status = RunStatus.canceled then
    Except.error 400
  else
    Except.ok { run with status := RunStatus.canceled, finishedAt := some now }

/-! ## Concrete fixtures and behaviours used by the claim theorems -/

/-- Default settings (config.py defaults). -/
def settings0 : AppSettings := {}

/-- Fixture: an active key with priority 100. -/
def keyA : ProviderKey :=
  { id := "kA", provider := "openai", apiKey := "skA", maxRpm := none,
    priority := 100, status := KeyStatus.active, createdAtEpoch := 0,
    lastUsedAt := none, lastErrorAt := none, errorCountRecent := 0,
    coolingUntil := none }

/-- Fixture: an active key with priority 200 (the backup). -/
def keyB : ProviderKey :=
  { keyA with id := "kB", apiKey := "skB", priority := 200 }

/-- Fixture: initial gateway state with keys A and B and empty stores. -/
def st0 : GatewayState :=
  { keys := [keyA, keyB], cursor := CursorCell.absent, rpm := [],
    redis := RedisStore.mk true [] }

/-- Fixture for the C6 counterexample: an active key with priority 0. -/
def keyP0 : ProviderKey :=
  { keyA with id := "kP0", apiKey := "skP0", priority := 0 }

/-- Fixture for the C6 counterexample: an active key with priority 50,
created later. -/
def keyP50 : ProviderKey :=
  { keyA with
    id := "kP50"
    apiKey := "skP50"
    priority := 50
    createdAtEpoch := 500 }

/-- Store fixture: reachable store with no samples. -/
def storeEmpty : RedisStore := RedisStore.mk true []

/-- Store fixture: reachable store with one sample for key "kA". -/
def storeOne : RedisStore :=
  RedisStore.mk true [("kA", [TokenSample.mk 100 10])]

/-- The score tuple exactly as the claim words it:
`(error_count_recent, priority, created_at_epoch)` — without the source's
Python `or`-defaults.  Used only to compare the claim's description against
`key_score`. -/
def key_score_spec (key : ProviderKey) : Int × Int × Int :=
  (key.errorCountRecent, key.priority, key.createdAtEpoch)

/-- Fixture: gateway state with only key A. -/
def stA : GatewayState :=
  { keys := [keyA], cursor := CursorCell.absent, rpm := [],
    redis := RedisStore.mk true [] }

/-- Adapter behaviour: key A fails with an authentication error, any other
key succeeds. -/
def behAuth : String → ChatOutcome := fun k =>
  if k = "skA" then ChatOutcome.failure ErrKind.authentication
  else ChatOutcome.success (some 10)

/-- Adapter behaviour: every key fails with a client error. -/
def behClient : String → ChatOutcome := fun _ =>
  ChatOutcome.failure ErrKind.client

/-- Adapter behaviour: key A fails with a rate limit (retry_after 7), any
other key succeeds. -/
def behRL : String → ChatOutcome := fun k =>
  if k = "skA" then ChatOutcome.failure (ErrKind.rateLimit (some 7))
  else ChatOutcome.success (some 10)

/-- Fixture: a queued run for provider "openai". -/
def run0 : RunRecord :=
  { status := RunStatus.queued, provider := "openai", retryCount := 0,
    error := none, lastErrorReason := none, startedAt := none,
    finishedAt := none, outputSet := false }

/-- Fixture: a request whose first message content is the `force429` hook. -/
def reqForce429 : ChatRequest :=
  ChatRequest.mk [ChatMessage.mk "user" "force429"]

/-! ## Helper lemmas -/

lemma addAt_length (v : Int) : ∀ (l : List Int) (i : Nat),
    (addAt l i v).length = l.length
  | [], _ => rfl
  | _ :: _, 0 => rfl
  | _ :: xs, Nat.succ n => by simp [addAt, addAt_length v xs n]

lemma bucketStep_length (startTime stepSeconds : Int) (bucketCount : Nat)
    (b : List Int) (s : TokenSample) :
    (bucketStep startTime stepSeconds bucketCount b s).length = b.length := by
  simp only [bucketStep]
  split_ifs <;> simp [addAt_length]

lemma foldl_bucketStep_length (startTime stepSeconds : Int) (bucketCount : Nat) :
    ∀ (samples : List TokenSample) (b : List Int),
      (samples.foldl (bucketStep startTime stepSeconds bucketCount) b).length =
        b.length
  | [], _ => rfl
  | s :: rest, b => by
    rw [List.foldl_cons,
      foldl_bucketStep_length startTime stepSeconds bucketCount rest,
      bucketStep_length]

lemma bucketsOf_length (samples : List TokenSample) (w s now : Int) :
    (bucketsOf samples w s now).length = bucketCountOf w s := by
  unfold bucketsOf
  rw [foldl_bucketStep_length, List.length_replicate]

lemma bucketCountOf_pos (w s : Int) : 0 < bucketCountOf w s := by
  unfold bucketCountOf
  have h : (1 : Int) ≤ max 1 ((w * 60).fdiv s) := le_max_left _ _
  omega

lemma length_insertSorted (score : ProviderKey → Int × Int × Int)
    (x : ProviderKey) : ∀ l : List ProviderKey,
    (insertSorted score x l).length = l.length + 1
  | [] => rfl
  | y :: ys => by
    unfold insertSorted
    split_ifs <;> simp [length_insertSorted score x ys]

lemma length_sortStable_aux (score : ProviderKey → Int × Int × Int) :
    ∀ (l acc : List ProviderKey),
      (l.foldl (fun acc x => insertSorted score x acc) acc).length =
        acc.length + l.length
  | [], acc => by simp
  | x :: xs, acc => by
    rw [List.foldl_cons, length_sortStable_aux score xs, length_insertSorted]
    simp [List.length_cons]
    omega

lemma length_sortByScore (l : List ProviderKey) :
    (sortByScore l).length = l.length := by
  unfold sortByScore sortStable
  rw [length_sortStable_aux]
  simp

lemma mem_insertSorted (score : ProviderKey → Int × Int × Int)
    (x a : ProviderKey) : ∀ l : List ProviderKey,
    a ∈ insertSorted score x l → a = x ∨ a ∈ l
  | [] => by intro h; simp [insertSorted] at h; exact Or.inl h
  | y :: ys => by
    intro h
    unfold insertSorted at h
    split_ifs at h with hc
    · rcases List.mem_cons.1 h with h | h
      · exact Or.inr (List.mem_cons.2 (Or.inl h))
      · rcases mem_insertSorted score x a ys h with h | h
        · exact Or.inl h
        · exact Or.inr (List.mem_cons.2 (Or.inr h))
    · rcases List.mem_cons.1 h with h | h
      · exact Or.inl h
      · exact Or.inr h

lemma mem_sortStable_aux (score : ProviderKey → Int × Int × Int)
    (a : ProviderKey) : ∀ (l acc : List ProviderKey),
    a ∈ l.foldl (fun acc x => insertSorted score x acc) acc → a ∈ acc ∨ a ∈ l
  | [], acc => by intro h; exact Or.inl h
  | x :: xs, acc => by
    intro h
    rw [List.foldl_cons] at h
    rcases mem_sortStable_aux score a xs (insertSorted score x acc) h with h | h
    · rcases mem_insertSorted score x a acc h with h | h
      · exact Or.inr (by simp [h])
      · exact Or.inl h
    · exact Or.inr (List.mem_cons.2 (Or.inr h))

lemma mem_sortByScore (a : ProviderKey) (l : List ProviderKey)
    (h : a ∈ sortByScore l) : a ∈ l := by
  unfold sortByScore sortStable at h
  rcases mem_sortStable_aux key_score a l [] h with h | h
  · simp at h
  · exact h

lemma mem_filterAvailable (settings : AppSettings) (now nowTs : Int)
    (excluded : List String) :
    ∀ (ks : List ProviderKey) (st : RpmState) (k : ProviderKey),
      k ∈ (filterAvailable settings now nowTs excluded ks st).1 →
      k.id ∉ excluded ∧ is_key_effectively_active k now = true ∧
        ∃ l1 l2, ks = l1 ++ k :: l2 ∧
          (can_use_key_for_rpm k settings nowTs
            (filterAvailable settings now nowTs excluded l1 st).2).1 = true
  | [], st, k => by intro h; simp [filterAvailable] at h
  | key :: rest, st, k => by
    intro h
    unfold filterAvailable at h
    by_cases h1 : key.id ∈ excluded
    · rw [if_pos h1] at h
      obtain ⟨hx, ha, l1, l2, heq, hchk⟩ :=
        mem_filterAvailable settings now nowTs excluded rest st k h
      refine ⟨hx, ha, key :: l1, l2, by rw [heq]; rfl, ?_⟩
      have hstep : (filterAvailable settings now nowTs excluded (key :: l1) st).2 =
          (filterAvailable settings now nowTs excluded l1 st).2 := by
        simp only [filterAvailable]
        rw [if_pos h1]
      rw [hstep]
      exact hchk
    · rw [if_neg h1] at h
      by_cases h2 : is_key_effectively_active key now = true
      · rw [if_neg (by simp [h2])] at h
        by_cases h3 : (can_use_key_for_rpm key settings nowTs st).1 = true
        · rw [if_pos h3] at h
          rcases List.mem_cons.1 h with h | h
          · subst h
            exact ⟨h1, h2, [], rest, rfl, by simpa [filterAvailable] using h3⟩
          · obtain ⟨hx, ha, l1, l2, heq, hchk⟩ :=
              mem_filterAvailable settings now nowTs excluded rest _ k h
            refine ⟨hx, ha, key :: l1, l2, by rw [heq]; rfl, ?_⟩
            have hstep :
                (filterAvailable settings now nowTs excluded (key :: l1) st).2 =
                  (filterAvailable settings now nowTs excluded l1
                    (can_use_key_for_rpm key settings nowTs st).2).2 := by
              simp only [filterAvailable]
              rw [if_neg h1, if_neg (by simp [h2])]
              rw [if_pos h3]
            rw [hstep]
            exact hchk
        · rw [if_neg h3] at h
          obtain ⟨hx, ha, l1, l2, heq, hchk⟩ :=
            mem_filterAvailable settings now nowTs excluded rest _ k h
          refine ⟨hx, ha, key :: l1, l2, by rw [heq]; rfl, ?_⟩
          have hstep :
              (filterAvailable settings now nowTs excluded (key :: l1) st).2 =
                (filterAvailable settings now nowTs excluded l1
                  (can_use_key_for_rpm key settings nowTs st).2).2 := by
            simp only [filterAvailable]
            rw [if_neg h1, if_neg (by simp [h2])]
            rw [if_neg h3]
          rw [hstep]
          exact hchk
      · rw [if_pos (by simp [h2])] at h
        obtain ⟨hx, ha, l1, l2, heq, hchk⟩ :=
          mem_filterAvailable settings now nowTs excluded rest st k h
        refine ⟨hx, ha, key :: l1, l2, by rw [heq]; rfl, ?_⟩
        have hstep : (filterAvailable settings now nowTs excluded (key :: l1) st).2 =
            (filterAvailable settings now nowTs excluded l1 st).2 := by
          simp only [filterAvailable]
          rw [if_neg h1, if_pos (by simp [h2])]
        rw [hstep]
        exact hchk

lemma decayErrorCount_cases (settings : AppSettings) (key : ProviderKey)
    (now : Int) :
    decayErrorCount settings key now = { key with errorCountRecent := 0 } ∨
      decayErrorCount settings key now = key := by
  unfold decayErrorCount
  cases key.lastErrorAt with
  | none => exact Or.inr rfl
  | some lastError =>
    dsimp only
    split_ifs with h
    · exact Or.inl rfl
    · exact Or.inr rfl

lemma decayErrorCount_lastErrorAt (settings : AppSettings) (key : ProviderKey)
    (now : Int) :
    (decayErrorCount settings key now).lastErrorAt = key.lastErrorAt := by
  rcases decayErrorCount_cases settings key now with h | h <;> rw [h]

lemma decayErrorCount_errorCount (settings : AppSettings) (key : ProviderKey)
    (now : Int) (hle : key.lastErrorAt = some l)
    (hcond : now - l ≥ settings.keyErrorDecayMinutes * 60) :
    (decayErrorCount settings key now).errorCountRecent = 0 := by
  unfold decayErrorCount
  rw [hle]
  dsimp only
  rw [if_pos hcond]

lemma reactivate_cases (key : ProviderKey) (now : Int) :
    reactivateIfCoolingExpired key now =
        { key with status := KeyStatus.active, coolingUntil := none } ∨
      reactivateIfCoolingExpired key now = key := by
  unfold reactivateIfCoolingExpired
  split_ifs with h
  · cases key.coolingUntil with
    | none => exact Or.inr rfl
    | some c =>
      dsimp only
      split_ifs with h2
      · exact Or.inl rfl
      · exact Or.inr rfl
  · exact Or.inr rfl

lemma reactivate_lastErrorAt (key : ProviderKey) (now : Int) :
    (reactivateIfCoolingExpired key now).lastErrorAt = key.lastErrorAt := by
  rcases reactivate_cases key now with h | h <;> rw [h]

lemma reactivate_errorCount (key : ProviderKey) (now : Int) :
    (reactivateIfCoolingExpired key now).errorCountRecent =
      key.errorCountRecent := by
  rcases reactivate_cases key now with h | h <;> rw [h]

lemma reactivate_of_not_cooling (key : ProviderKey) (now : Int)
    (h : ¬ key.status = KeyStatus.coolingDown) :
    reactivateIfCoolingExpired key now = key := by
  unfold reactivateIfCoolingExpired
  rw [if_neg h]

lemma reactivate_idem (key : ProviderKey) (now : Int) :
    reactivateIfCoolingExpired (reactivateIfCoolingExpired key now) now =
      reactivateIfCoolingExpired key now := by
  rcases reactivate_cases key now with h | h <;> rw [h]
  · exact reactivate_of_not_cooling _ now (by simp)
  · exact h

lemma eta_errorCount (key : ProviderKey) (h : key.errorCountRecent = 0) :
    { key with errorCountRecent := 0 } = key := by
  obtain ⟨id, prov, api, mrpm, prio, status, created, lu, le, ec, cu⟩ := key
  simp_all

lemma decay_key_errors_id (settings : AppSettings) (key : ProviderKey)
    (now : Int) : (decay_key_errors settings key now).id = key.id := by
  unfold decay_key_errors
  rcases reactivate_cases (decayErrorCount settings key now) now with h | h <;>
    rw [h] <;>
    rcases decayErrorCount_cases settings key now with h2 | h2 <;> rw [h2]

lemma decay_key_errors_apiKey (settings : AppSettings) (key : ProviderKey)
    (now : Int) : (decay_key_errors settings key now).apiKey = key.apiKey := by
  unfold decay_key_errors
  rcases reactivate_cases (decayErrorCount settings key now) now with h | h <;>
    rw [h] <;>
    rcases decayErrorCount_cases settings key now with h2 | h2 <;> rw [h2]

lemma mem_updateKey (table : List ProviderKey) (k k' : ProviderKey)
    (h : k' ∈ updateKey table k) : k' = k ∨ (k' ∈ table ∧ k'.id ≠ k.id) := by
  unfold updateKey at h
  rcases List.mem_map.1 h with ⟨k0, hk0, heq⟩
  by_cases hid : k0.id = k.id
  · rw [if_pos hid] at heq
    exact Or.inl heq.symm
  · rw [if_neg hid] at heq
    subst heq
    exact Or.inr ⟨hk0, hid⟩

/-! ## Time-series query characterisation (for C1) -/

lemma core_eq (samples0 : List TokenSample) (w s now : Int)
    (hne : samples0.filter (inWindow w now) ≠ []) :
    get_key_tokens_timeseries_core samples0 w s now =
      (bucketsOf (samples0.filter (inWindow w now)) w s now).enum.map
        (fun p => TimePoint.mk (startTimeOf w s now + (p.1 : Int) * s) p.2) := by
  have h0 : samples0 ≠ [] := by
    intro h
    subst h
    simp at hne
  unfold get_key_tokens_timeseries_core
  rw [if_neg (by simpa using h0)]
  dsimp only
  rw [if_neg (by simpa using hne)]

lemma core_length (samples0 : List TokenSample) (w s now : Int)
    (hne : samples0.filter (inWindow w now) ≠ []) :
    (get_key_tokens_timeseries_core samples0 w s now).length = bucketCountOf w s := by
  rw [core_eq samples0 w s now hne, List.length_map, List.enum_length,
    bucketsOf_length]

lemma core_get?_ts (samples0 : List TokenSample) (w s now : Int)
    (hne : samples0.filter (inWindow w now) ≠ []) (i : Nat) (p : TimePoint)
    (hp : (get_key_tokens_timeseries_core samples0 w s now).get? i = some p) :
    p.ts = startTimeOf w s now + (i : Int) * s := by
  rw [core_eq samples0 w s now hne, List.get?_map, List.get?_enum] at hp
  cases hb : (bucketsOf (samples0.filter (inWindow w now)) w s now).get? i with
  | none =>
    rw [hb] at hp
    simp at hp
  | some v =>
    rw [hb] at hp
    obtain ⟨ts, tk⟩ := p
    simp [TimePoint.mk.injEq] at hp
    exact hp.1.symm

lemma endTimeOf_ge (s now : Int) (hs : 0 < s) : now ≤ endTimeOf s now := by
  unfold endTimeOf
  rw [Int.fdiv_eq_ediv _ hs.le]
  have h1 := Int.ediv_add_emod (now + s - 1) s
  have h2 := Int.emod_nonneg (now + s - 1) (by omega : s ≠ 0)
  have h3 := Int.emod_lt_of_pos (now + s - 1) hs
  nlinarith [h1, h2, h3]

lemma endTimeOf_le (s now : Int) (hs : 0 < s) : endTimeOf s now ≤ now + s - 1 := by
  unfold endTimeOf
  rw [Int.fdiv_eq_ediv _ hs.le]
  have h1 := Int.ediv_add_emod (now + s - 1) s
  have h2 := Int.emod_nonneg (now + s - 1) (by omega : s ≠ 0)
  nlinarith [h1, h2]

/-! ## Claim C1 -/

/-- C1 (amended): when the store is reachable and at least one stored sample
lies inside the query window, the query returns exactly
`max(1, window_seconds // step_seconds)` points, consecutive timestamps
increase by exactly `step_seconds`, and the last bucket satisfies
`now ≤ ts + step_seconds` and `ts < now`.  (The claim's strict
`ts + step > now` fails when `now` is a multiple of the step, and with no
in-window sample the source returns `[]`; see the counterexample.) -/
theorem claim_C1_amended (st : RedisStore) (keyId : String) (w s now : Int)
    (hok : st.ok = true) (hs : 0 < s)
    (hne : (redisList st keyId).filter (inWindow w now) ≠ []) :
    (get_key_tokens_timeseries st keyId w s now).length = bucketCountOf w s ∧
    (∀ i p q, (get_key_tokens_timeseries st keyId w s now).get? i = some p →
        (get_key_tokens_timeseries st keyId w s now).get? (i + 1) = some q →
        q.ts = p.ts + s) ∧
    (∀ p, (get_key_tokens_timeseries st keyId w s now).getLast? = some p →
        now ≤ p.ts + s ∧ p.ts < now) := by
  have houter : get_key_tokens_timeseries st keyId w s now =
      get_key_tokens_timeseries_core (redisList st keyId) w s now := by
    unfold get_key_tokens_timeseries
    rw [if_pos hok]
  refine ⟨by rw [houter]; exact core_length _ _ _ _ hne, ?_, ?_⟩
  · intro i p q hp hq
    rw [houter] at hp hq
    have h1 := core_get?_ts _ _ _ _ hne i p hp
    have h2 := core_get?_ts _ _ _ _ hne (i + 1) q hq
    rw [h1, h2]
    push_cast
    ring
  · intro p hp
    rw [houter] at hp
    have hlen := core_length (redisList st keyId) w s now hne
    rw [List.getLast?_eq_get?] at hp
    have hts := core_get?_ts _ _ _ _ hne _ p hp
    rw [hlen] at hts
    have hbc : 1 ≤ bucketCountOf w s := bucketCountOf_pos w s
    have hcast : ((bucketCountOf w s - 1 : Nat) : Int) =
        (bucketCountOf w s : Int) - 1 := by omega
    rw [hcast] at hts
    unfold startTimeOf at hts
    have hge := endTimeOf_ge s now hs
    have hle := endTimeOf_le s now hs
    constructor <;> nlinarith [hts]

/-- Witness for C1 at a concrete input: one in-window sample, `now = 130`,
window 5 minutes, step 60 seconds. -/
theorem claim_C1_witness :
    (get_key_tokens_timeseries storeOne "kA" 5 60 130).length =
      bucketCountOf 5 60 :=
  (claim_C1_amended storeOne "kA" 5 60 130 rfl (by decide) (by decide)).1

/-- C1 (counterexample): with zero stored samples the query returns `[]`
rather than `max(1, window_seconds // step_seconds)` points, and at
`now = 120` (a multiple of the step) the last bucket's `ts + step` equals
`now`, refuting the claimed strict inequality. -/
theorem claim_C1_counterexample :
    get_key_tokens_timeseries storeEmpty "kA" 5 60 1000 = [] ∧
    (get_key_tokens_timeseries storeEmpty "kA" 5 60 1000).length ≠
      bucketCountOf 5 60 ∧
    ((get_key_tokens_timeseries storeOne "kA" 5 60 120).getLast?.map
      TimePoint.ts) = some 60 ∧
    ¬ ((60 : Int) + 60 > 120) := by
  exact ⟨rfl, by decide, by decide, by decide⟩

/-! ## Selection characterisation (for C6 and C7) -/

lemma mem_filterAvailable_sub (settings : AppSettings) (now nowTs : Int)
    (excluded : List String) :
    ∀ (ks : List ProviderKey) (st : RpmState) (k : ProviderKey),
      k ∈ (filterAvailable settings now nowTs excluded ks st).1 → k ∈ ks
  | [], st, k => by intro h; simp [filterAvailable] at h
  | key :: rest, st, k => by
    intro h
    unfold filterAvailable at h
    by_cases h1 : key.id ∈ excluded
    · rw [if_pos h1] at h
      exact List.mem_cons.2
        (Or.inr (mem_filterAvailable_sub settings now nowTs excluded rest st k h))
    · rw [if_neg h1] at h
      by_cases h2 : is_key_effectively_active key now = true
      · rw [if_neg (by simp [h2])] at h
        by_cases h3 : (can_use_key_for_rpm key settings nowTs st).1 = true
        · rw [if_pos h3] at h
          rcases List.mem_cons.1 h with h | h
          · exact List.mem_cons.2 (Or.inl h)
          · exact List.mem_cons.2
              (Or.inr (mem_filterAvailable_sub settings now nowTs excluded rest _ k h))
        · rw [if_neg h3] at h
          exact List.mem_cons.2
            (Or.inr (mem_filterAvailable_sub settings now nowTs excluded rest _ k h))
      · rw [if_pos (by simp [h2])] at h
        exact List.mem_cons.2
          (Or.inr (mem_filterAvailable_sub settings now nowTs excluded rest st k h))

lemma choose_best_key_of_avail (allKeys : List ProviderKey) (provider : String)
    (settings : AppSettings) (now nowTs : Int) (excluded : List String)
    (cursor : CursorCell) (rpm : RpmState)
    (hne : (filterAvailable settings now nowTs excluded
        (providerKeysDecayed allKeys provider settings now) rpm).1 ≠ []) :
    choose_best_key allKeys provider settings now nowTs excluded cursor rpm =
      ⟨(sortByScore (filterAvailable settings now nowTs excluded
            (providerKeysDecayed allKeys provider settings now) rpm).1).get?
          ((readCursor cursor).emod
            ((sortByScore (filterAvailable settings now nowTs excluded
              (providerKeysDecayed allKeys provider settings now) rpm).1).length :
                Int)).toNat,
        providerKeysDecayed allKeys provider settings now,
        CursorCell.val (readCursor cursor + 1),
        (filterAvailable settings now nowTs excluded
          (providerKeysDecayed allKeys provider settings now) rpm).2⟩ := by
  have hkeysD : providerKeysDecayed allKeys provider settings now ≠ [] := by
    intro h
    rw [h] at hne
    exact hne rfl
  unfold choose_best_key
  rw [if_neg (by simpa using hkeysD)]
  dsimp only
  rw [if_neg (by simpa using hne)]

/-! ## Claim C6 -/

/-- C6 (amended): when at least one key is available, `choose_best_key`
returns the key at index `c mod len(available)` of the available keys
stable-sorted ascending by the source's score tuple
`(error_count_recent or 0, priority or 100, created_at_epoch)` — priority 0
is falsy in Python and scores as 100, unlike the claim's plain `priority` —
where `c` is the cursor read from the shared store (0 when absent or
unreadable), and the cursor persisted back is `c + 1`. -/
theorem claim_C6_amended (allKeys : List ProviderKey) (provider : String)
    (settings : AppSettings) (now nowTs : Int) (excluded : List String)
    (cursor : CursorCell) (rpm : RpmState)
    (hne : (filterAvailable settings now nowTs excluded
        (providerKeysDecayed allKeys provider settings now) rpm).1 ≠ []) :
    ((choose_best_key allKeys provider settings now nowTs excluded cursor
        rpm).selected =
      (sortByScore (filterAvailable settings now nowTs excluded
          (providerKeysDecayed allKeys provider settings now) rpm).1).get?
        ((readCursor cursor).emod
          (((filterAvailable settings now nowTs excluded
            (providerKeysDecayed allKeys provider settings now) rpm).1.length :
              Int))).toNat) ∧
    ((choose_best_key allKeys provider settings now nowTs excluded cursor
        rpm).selected.isSome = true) ∧
    ((choose_best_key allKeys provider settings now nowTs excluded cursor
        rpm).cursor = CursorCell.val (readCursor cursor + 1)) := by
  rw [choose_best_key_of_avail allKeys provider settings now nowTs excluded
    cursor rpm hne]
  set avail := (filterAvailable settings now nowTs excluded
    (providerKeysDecayed allKeys provider settings now) rpm).1 with havail
  have hlen : (sortByScore avail).length = avail.length := length_sortByScore avail
  have hpos : 0 < avail.length := List.length_pos.2 hne
  have hidx : ((readCursor cursor).emod ((sortByScore avail).length : Int)).toNat <
      (sortByScore avail).length := by
    have hz : ((sortByScore avail).length : Int) ≠ 0 := by
      rw [hlen]
      exact_mod_cast hpos.ne'
    have hposInt : (0 : Int) < ((sortByScore avail).length : Int) := by
      rw [hlen]
      exact_mod_cast hpos
    have h1 : 0 ≤ (readCursor cursor).emod ((sortByScore avail).length : Int) :=
      Int.emod_nonneg (readCursor cursor) hz
    have h2 : (readCursor cursor).emod ((sortByScore avail).length : Int) <
        ((sortByScore avail).length : Int) :=
      Int.emod_lt_of_pos (readCursor cursor) hposInt
    omega
  refine ⟨by rw [hlen], ?_, rfl⟩
  dsimp only
  rw [List.get?_eq_get hidx]
  rfl

/-- Witness for C6 at a concrete input: two active keys, absent cursor. -/
theorem claim_C6_witness :
    ((choose_best_key [keyA, keyB] "openai" settings0 1000 1000 []
        CursorCell.absent []).selected =
      (sortByScore (filterAvailable settings0 1000 1000 []
          (providerKeysDecayed [keyA, keyB] "openai" settings0 1000) []).1).get?
        ((readCursor CursorCell.absent).emod
          (((filterAvailable settings0 1000 1000 []
            (providerKeysDecayed [keyA, keyB] "openai" settings0 1000) []).1.length :
              Int))).toNat) ∧
    ((choose_best_key [keyA, keyB] "openai" settings0 1000 1000 []
        CursorCell.absent []).selected.isSome = true) ∧
    ((choose_best_key [keyA, keyB] "openai" settings0 1000 1000 []
        CursorCell.absent []).cursor = CursorCell.val (readCursor CursorCell.absent + 1)) :=
  claim_C6_amended [keyA, keyB] "openai" settings0 1000 1000 []
    CursorCell.absent [] (by decide)

/-- C6 (counterexample): with keys of priority 0 and 50 and cursor 0, the
source selects the priority-50 key (because `priority or 100` turns 0 into
100), while the claim's tuple `(error_count_recent, priority,
created_at_epoch)` puts the priority-0 key at index 0. -/
theorem claim_C6_counterexample :
    ((choose_best_key [keyP0, keyP50] "openai" settings0 1000 1000 []
        CursorCell.absent []).selected.map ProviderKey.id = some "kP50") ∧
    (((sortStable key_score_spec (filterAvailable settings0 1000 1000 []
          (providerKeysDecayed [keyP0, keyP50] "openai" settings0 1000) []).1).get?
        ((readCursor CursorCell.absent).emod
          (((filterAvailable settings0 1000 1000 []
            (providerKeysDecayed [keyP0, keyP50] "openai" settings0 1000) []).1.length :
              Int))).toNat).map ProviderKey.id = some "kP0") ∧
    ("kP50" : String) ≠ "kP0" := by
  exact ⟨by decide, by decide, by decide⟩

/-! ## Claim C7 -/

/-- C7: whenever `choose_best_key` returns a key, that key is the decayed
image of a stored key, its id is not in the excluded set, it is effectively
active at `now` (status not disabled, cooling over), and it passed the
in-process RPM-window check during the availability filter: the key sits at
a split `l1 ++ k :: l2` of the provider's decayed keys, and
`can_use_key_for_rpm` returned `true` for it against the RPM state obtained
by filtering the prefix `l1` from the pool's incoming state — exactly the
state the source's loop had reached when it checked this key. -/
theorem claim_C7_selected_key_valid (allKeys : List ProviderKey)
    (provider : String) (settings : AppSettings) (now nowTs : Int)
    (excluded : List String) (cursor : CursorCell) (rpm : RpmState)
    (k : ProviderKey)
    (hsel : (choose_best_key allKeys provider settings now nowTs excluded
      cursor rpm).selected = some k) :
    (∃ k0, k0 ∈ allKeys ∧ k = decay_key_errors settings k0 now) ∧
    k.id ∉ excluded ∧
    is_key_effectively_active k now = true ∧
    (∃ l1 l2,
      providerKeysDecayed allKeys provider settings now = l1 ++ k :: l2 ∧
      (can_use_key_for_rpm k settings nowTs
        (filterAvailable settings now nowTs excluded l1 rpm).2).1 = true) := by
  by_cases hkeysD : (providerKeysDecayed allKeys provider settings now).isEmpty = true
  · unfold choose_best_key at hsel
    rw [if_pos hkeysD] at hsel
    simp at hsel
  · by_cases hav : (filterAvailable settings now nowTs excluded
        (providerKeysDecayed allKeys provider settings now) rpm).1.isEmpty = true
    · unfold choose_best_key at hsel
      rw [if_neg hkeysD] at hsel
      dsimp only at hsel
      rw [if_pos hav] at hsel
      simp at hsel
    · unfold choose_best_key at hsel
      rw [if_neg hkeysD] at hsel
      dsimp only at hsel
      rw [if_neg hav] at hsel
      dsimp only at hsel
      have hmem : k ∈ sortByScore (filterAvailable settings now nowTs excluded
          (providerKeysDecayed allKeys provider settings now) rpm).1 :=
        List.get?_mem hsel
      have hmem2 := mem_sortByScore k _ hmem
      have hprops := mem_filterAvailable settings now nowTs excluded _ rpm k hmem2
      have hmemD := mem_filterAvailable_sub settings now nowTs excluded _ rpm k hmem2
      refine ⟨?_, hprops⟩
      unfold providerKeysDecayed at hmemD
      rcases List.mem_map.1 hmemD with ⟨k0, hk0, heq⟩
      exact ⟨k0, (List.mem_filter.1 hk0).1, heq.symm⟩

/-- Witness for C7 at a concrete input: a single active key is selected and
satisfies all the conditions, the RPM check passing against the state the
filter reached at its position. -/
theorem claim_C7_witness :
    (∃ k0, k0 ∈ [keyA] ∧ keyA = decay_key_errors settings0 k0 1000) ∧
    keyA.id ∉ ([] : List String) ∧
    is_key_effectively_active keyA 1000 = true ∧
    (∃ l1 l2,
      providerKeysDecayed [keyA] "openai" settings0 1000 = l1 ++ keyA :: l2 ∧
      (can_use_key_for_rpm keyA settings0 1000
        (filterAvailable settings0 1000 1000 [] l1 []).2).1 = true) :=
  claim_C7_selected_key_valid [keyA] "openai" settings0 1000 1000 []
    CursorCell.absent [] keyA (by decide)

/-! ## Claim C9 -/

/-- C9: `decayErrors` is idempotent — for every key state and every `now`,
applying `decay_key_errors` twice at the same `now` yields exactly the same
key state as applying it once. -/
theorem claim_C9_decay_idempotent (settings : AppSettings) (key : ProviderKey)
    (now : Int) :
    decay_key_errors settings (decay_key_errors settings key now) now =
      decay_key_errors settings key now := by
  unfold decay_key_errors
  set y := decayErrorCount settings key now with hy
  set z := reactivateIfCoolingExpired y now with hz
  have hle : z.lastErrorAt = key.lastErrorAt := by
    rw [hz, reactivate_lastErrorAt, hy, decayErrorCount_lastErrorAt]
  cases hk : key.lastErrorAt with
  | none =>
    have h1 : decayErrorCount settings z now = z := by
      unfold decayErrorCount
      rw [hle, hk]
    rw [h1]
    exact reactivate_idem y now
  | some l =>
    by_cases hcond : now - l ≥ settings.keyErrorDecayMinutes * 60
    · have h1 : decayErrorCount settings z now = { z with errorCountRecent := 0 } := by
        unfold decayErrorCount
        rw [hle, hk]
        dsimp only
        rw [if_pos hcond]
      have h2 : z.errorCountRecent = 0 := by
        rw [hz, reactivate_errorCount, hy]
        exact decayErrorCount_errorCount settings key now hk hcond
      rw [h1, eta_errorCount z h2]
      exact reactivate_idem y now
    · have h1 : decayErrorCount settings z now = z := by
        unfold decayErrorCount
        rw [hle, hk]
        dsimp only
        rw [if_neg hcond]
      rw [h1]
      exact reactivate_idem y now

/-! ## Claim C10 -/

/-- C10: `record_key_tokens` is total and swallows storage failures — for
non-positive token counts it performs no store operation at all, and when
the store is unreachable (or the `try` block fails for any reason) it
returns normally with the store unchanged. -/
theorem claim_C10_record_total (st : RedisStore) (keyId : String)
    (tokens nowTs : Int) :
    (tokens ≤ 0 → record_key_tokens st keyId tokens nowTs = st) ∧
    (st.ok = false → record_key_tokens st keyId tokens nowTs = st) ∧
    (∀ e, record_key_tokens_try st keyId tokens nowTs = Except.error e →
      record_key_tokens st keyId tokens nowTs = st) := by
  refine ⟨fun h => by simp [record_key_tokens, h], fun h => ?_, fun e he => ?_⟩
  · unfold record_key_tokens
    split_ifs with ht
    · rfl
    · unfold record_key_tokens_try
      rw [h]
      rfl
  · unfold record_key_tokens
    split_ifs with ht
    · rfl
    · rw [he]

/-- Witness for C10 at a concrete input: an unreachable store is returned
unchanged. -/
theorem claim_C10_witness :
    record_key_tokens (RedisStore.mk false []) "key-1" 5 700 =
      RedisStore.mk false [] :=
  (claim_C10_record_total (RedisStore.mk false []) "key-1" 5 700).2.1 rfl


/-! ## Claim C2 -/

/-- C2 (code behaviour at the failing input): with two active keys where the
first returns an authentication error and the second would succeed, the sync
chat endpoint answers HTTP 500 — not 200 — because `chat_completion` has no
handler for the authentication error (and `errors.py` does not even define
the `ProviderAuthenticationError` class the adapters import); no key is
disabled and the second key is never tried (its `last_used_at` stays null). -/
theorem claim_C2_code_behavior :
    ((chat_completion behAuth "openai" settings0 1000 1000 st0).1 =
      HttpResult.internal500) ∧
    (∀ k ∈ (chat_completion behAuth "openai" settings0 1000 1000 st0).2.keys,
      k.status ≠ KeyStatus.disabled) ∧
    (((chat_completion behAuth "openai" settings0 1000 1000 st0).2.keys.find?
        (fun k => k.id = "kB")).map ProviderKey.lastUsedAt = some none) := by
  exact ⟨by decide, by decide, by decide⟩

/-! ## Claim C3 -/

/-- C3 (code behaviour at the failing input): with two active keys where the
first returns a rate-limit error (retry_after 7) and the second would
succeed, `process_run_job` at attempt 1 (below `worker_max_attempts`)
re-enqueues immediately with the retry-after delay and next attempt 2; the
second key is never tried in the same attempt (its `last_used_at` stays
null), contradicting the claimed in-attempt failover loop. -/
theorem claim_C3_code_behavior :
    ((process_run_job behRL settings0 1000 1000 run0 1 st0).1 =
      WorkerOutcome.requeued 7 2) ∧
    ((process_run_job behRL settings0 1000 1000 run0 1 st0).2.1.status =
      RunStatus.queued) ∧
    ((process_run_job behRL settings0 1000 1000 run0 1 st0).2.1.retryCount = 1) ∧
    (((process_run_job behRL settings0 1000 1000 run0 1 st0).2.2.keys.find?
        (fun k => k.id = "kB")).map ProviderKey.lastUsedAt = some none) ∧
    (1 < settings0.workerMaxAttempts) := by
  exact ⟨by decide, by decide, by decide, by decide, by decide⟩

/-! ## Claim C4 -/

/-- C4 (code behaviour at the failing input): when the producer's enqueue
raises, `create_run` persists the run with terminal status `failed` but
leaves `finished_at` null, violating the terminal-state invariant. -/
theorem claim_C4_code_behavior :
    ((create_run none false "openai").1 = CreateRunResult.enqueueFailed500) ∧
    (((create_run none false "openai").2.map
        (fun r => (r.status, r.finishedAt))) =
      some (RunStatus.failed, none)) := by
  exact ⟨rfl, rfl⟩

/-! ## Claim C5 -/

lemma chat_loop_client_eq (behavior : String → ChatOutcome) (provider : String)
    (settings : AppSettings) (now nowTs : Int) (st : GatewayState)
    (key0 : ProviderKey) (n : Nat) (excluded : List String)
    (lastErr : Option ErrKind)
    (hsel : (choose_best_key st.keys provider settings now nowTs excluded
      st.cursor st.rpm).selected = some key0)
    (hbeh : behavior key0.apiKey = ChatOutcome.failure ErrKind.client) :
    chat_completion_loop behavior provider settings now nowTs (Nat.succ n)
      excluded lastErr st =
      (HttpResult.badRequest400,
        ({ keys := updateKey (updateKeys st.keys
             (choose_best_key st.keys provider settings now nowTs excluded
               st.cursor st.rpm).keys)
             (update_key_usage (decay_key_errors settings key0 now) now)
           cursor := (choose_best_key st.keys provider settings now nowTs
             excluded st.cursor st.rpm).cursor
           rpm := register_key_usage (decay_key_errors settings key0 now)
             settings nowTs
             (choose_best_key st.keys provider settings now nowTs excluded
               st.cursor st.rpm).rpm
           redis := st.redis } : GatewayState)) := by
  rw [chat_completion_loop]
  rw [hsel]
  dsimp only
  rw [show (update_key_usage (decay_key_errors settings key0 now) now).apiKey =
        key0.apiKey from decay_key_errors_apiKey settings key0 now, hbeh]

/-- C5 (amended): when the adapter fails with a client error for the first
selected key, the request fails at once with HTTP 400 and no key mutation
happens on the error path: relative to the selected key's post-decay state,
`error_count_recent`, `last_error_at`, `status` and `cooling_until` are all
unchanged — in particular the error count is NOT incremented and
`last_error_at` is NOT set, because the client branch emits only an error
metric and never calls `mark_key_error`. -/
theorem claim_C5_amended (behavior : String → ChatOutcome) (provider : String)
    (settings : AppSettings) (now nowTs : Int) (st : GatewayState)
    (key0 : ProviderKey)
    (hsel : (choose_best_key st.keys provider settings now nowTs []
      st.cursor st.rpm).selected = some key0)
    (hbeh : behavior key0.apiKey = ChatOutcome.failure ErrKind.client) :
    ((chat_completion behavior provider settings now nowTs st).1 =
      HttpResult.badRequest400) ∧
    (∀ k ∈ (chat_completion behavior provider settings now nowTs st).2.keys,
      k.id = key0.id →
        k.errorCountRecent =
          (decay_key_errors settings key0 now).errorCountRecent ∧
        k.lastErrorAt = (decay_key_errors settings key0 now).lastErrorAt ∧
        k.status = (decay_key_errors settings key0 now).status ∧
        k.coolingUntil = (decay_key_errors settings key0 now).coolingUntil) := by
  have hcc : chat_completion behavior provider settings now nowTs st =
      chat_completion_loop behavior provider settings now nowTs
        (Nat.succ settings.syncLlmMaxRetries) [] none st := rfl
  rw [hcc, chat_loop_client_eq behavior provider settings now nowTs st key0
    settings.syncLlmMaxRetries [] none hsel hbeh]
  refine ⟨rfl, ?_⟩
  intro k hk hid
  dsimp only at hk
  rcases mem_updateKey _ _ _ hk with h | ⟨_, hne⟩
  · subst h
    exact ⟨rfl, rfl, rfl, rfl⟩
  · exact absurd
      (hid.trans (decay_key_errors_id settings key0 now).symm) hne

/-- Witness for C5 at a concrete input: a single active key whose adapter
call fails with a client error. -/
theorem claim_C5_witness :
    ((chat_completion behClient "openai" settings0 1000 1000 stA).1 =
      HttpResult.badRequest400) ∧
    (∀ k ∈ (chat_completion behClient "openai" settings0 1000 1000 stA).2.keys,
      k.id = keyA.id →
        k.errorCountRecent =
          (decay_key_errors settings0 keyA 1000).errorCountRecent ∧
        k.lastErrorAt = (decay_key_errors settings0 keyA 1000).lastErrorAt ∧
        k.status = (decay_key_errors settings0 keyA 1000).status ∧
        k.coolingUntil = (decay_key_errors settings0 keyA 1000).coolingUntil) :=
  claim_C5_amended behClient "openai" settings0 1000 1000 stA keyA
    (by decide) rfl

/-- C5 (counterexample): after a client error the key's recent-error count
is still 0 and `last_error_at` is still null — the claimed `mark_key_error`
with kind client (incrementing the count and stamping the error time) never
happens. -/
theorem claim_C5_counterexample :
    ((chat_completion behClient "openai" settings0 1000 1000 stA).1 =
      HttpResult.badRequest400) ∧
    (((chat_completion behClient "openai" settings0 1000 1000 stA).2.keys.find?
        (fun k => k.id = "kA")).map ProviderKey.errorCountRecent = some 0) ∧
    (((chat_completion behClient "openai" settings0 1000 1000 stA).2.keys.find?
        (fun k => k.id = "kA")).map ProviderKey.lastErrorAt = some none) ∧
    ((0 : Int) ≠ 0 + 1) := by
  exact ⟨by decide, by decide, by decide, by decide⟩

/-! ## Claim C8 -/

/-- C8 (amended): only the Anthropic adapter implements the test hooks —
for a non-empty key and a request whose first message content is
`force429` it raises a rate-limit error (retry_after 30), and for
`force_transient_error` a transient error, in both cases before any
upstream HTTP call; the OpenAI and Gemini adapters have no such hooks (see
the counterexample). -/
theorem claim_C8_amended (key : String) (req : ChatRequest) (m : ChatMessage)
    (rest : List ChatMessage) (hkey : ¬ key = "")
    (hm : req.messages = m :: rest) :
    (m.content = "force429" →
      anthropic_chat_pre key req =
        PreOutcome.raiseProvider (ErrKind.rateLimit (some 30))) ∧
    (m.content = "force_transient_error" →
      anthropic_chat_pre key req = PreOutcome.raiseProvider ErrKind.transient) := by
  unfold anthropic_chat_pre
  rw [if_neg hkey, hm]
  constructor
  · intro hc
    dsimp only
    rw [if_pos hc]
  · intro hc
    dsimp only
    rw [if_neg (by rw [hc]; decide), if_pos hc]

/-- Witness for C8 at a concrete input: the Anthropic adapter with a
non-empty key and first message `force429`. -/
theorem claim_C8_witness :
    (ChatMessage.content (ChatMessage.mk "user" "force429") = "force429" →
      anthropic_chat_pre "sk-test" reqForce429 =
        PreOutcome.raiseProvider (ErrKind.rateLimit (some 30))) ∧
    (ChatMessage.content (ChatMessage.mk "user" "force429") =
        "force_transient_error" →
      anthropic_chat_pre "sk-test" reqForce429 =
        PreOutcome.raiseProvider ErrKind.transient) :=
  claim_C8_amended "sk-test" reqForce429 (ChatMessage.mk "user" "force429") []
    (by decide) rfl

/-- C8 (counterexample): the OpenAI and Gemini adapters proceed straight to
the upstream call on a `force429` first message instead of raising a
rate-limit error, refuting the claim for every provider adapter. -/
theorem claim_C8_counterexample :
    openai_chat_pre "sk-test" reqForce429 = PreOutcome.proceedUpstream ∧
    gemini_chat_pre "sk-test" reqForce429 = PreOutcome.proceedUpstream ∧
    PreOutcome.proceedUpstream ≠
      PreOutcome.raiseProvider (ErrKind.rateLimit (some 30)) := by
  exact ⟨rfl, rfl, by decide⟩

end RouteLLM
